import Mathlib

/-!
Shallow embedding of the Universal Website Scraper MVP (Python sources:
`parser.py`, `static_scraper.py`, `js_scraper.py`, `scraper.py`, `models.py`)
and verification of the frozen claims about it.

Python strings are modelled as Lean `String` (a list of characters, matching
Python's code-point indexing).  The parsed HTML document (BeautifulSoup tree)
is modelled by the inductive type `Node`.  Network, browser and clock effects
are modelled by explicit outcome parameters fed to the pure pipeline.
-/

/-! ## Python string primitives -/

/-- ASCII whitespace, as matched by Python's regex `\s` and `str.strip`. -/
def isSpace (c : Char) : Bool :=
  c = ' ' || c = '\t' || c = '\n' || c = '\r' || c = '\x0b' || c = '\x0c'

/-- One step of `re.sub(r'\s+', ' ', ·)`: every maximal whitespace run
becomes a single space. -/
def collapseWs : List Char → List Char
  | [] => []
  | [c] => if isSpace c then [' '] else [c]
  | c :: d :: rest =>
    if isSpace c && isSpace d then collapseWs (d :: rest)
    else (if isSpace c then ' ' else c) :: collapseWs (d :: rest)

/-- Python `str.strip()` on a character list. -/
def stripChars (l : List Char) : List Char :=
  ((l.dropWhile isSpace).reverse.dropWhile isSpace).reverse

/-- Python `str.strip()`. -/
def pyStrip (s : String) : String := String.mk (stripChars s.data)

/-- Python `str.lower()` (ASCII case folding suffices for the inputs here). -/
def pyLower (s : String) : String := String.mk (s.data.map Char.toLower)

/-- Python `s[:n]` for a string. -/
def strTake (s : String) (n : Nat) : String := String.mk (s.data.take n)

/-- Python `str.split()` with no argument: split on whitespace runs,
dropping empty words.  `cur` accumulates the current word reversed. -/
def wordsAux : List Char → List Char → List String
  | [], cur => if cur.isEmpty then [] else [String.mk cur.reverse]
  | c :: rest, cur =>
    if isSpace c then
      if cur.isEmpty then wordsAux rest []
      else String.mk cur.reverse :: wordsAux rest []
    else wordsAux rest (c :: cur)

/-- Python `str.split()` with no argument. -/
def pySplit (s : String) : List String := wordsAux s.data []

/-- Is the first list a prefix of the second (boolean)? -/
def listPrefixB : List Char → List Char → Bool
  | [], _ => true
  | _ :: _, [] => false
  | a :: as, b :: bs => a = b && listPrefixB as bs

/-- Does `needle` occur contiguously in `hay`?  Models Python `needle in hay`. -/
def occursIn (needle : List Char) : List Char → Bool
  | [] => needle.isEmpty
  | c :: rest => listPrefixB needle (c :: rest) || occursIn needle rest

/-- Python `needle in hay` on strings. -/
def strContains (hay needle : String) : Bool := occursIn needle.data hay.data

/-- Python `hay.startswith(pre)`. -/
def strStartsWith (hay pre : String) : Bool := listPrefixB pre.data hay.data

/-! ## The parsed HTML tree (BeautifulSoup model)

Tag names are stored lowercase, as the HTML parser lowercases them.
The `class` attribute is kept as its raw string; BeautifulSoup's multi-valued
view of it is recovered by splitting on whitespace. -/

inductive Node where
  | elem (tag : String) (attrs : List (String × String)) (children : List Node)
  | text (s : String)

/-- Tag name of a node (empty for a text node). -/
def Node.tagName : Node → String
  | Node.elem t _ _ => t
  | Node.text _ => ""

/-- `element.get(key)`: first binding of an attribute, if present. -/
def getAttr (n : Node) (k : String) : Option String :=
  match n with
  | Node.elem _ attrs _ => (attrs.find? (fun p => p.1 == k)).map (fun p => p.2)
  | Node.text _ => none

/-- `' '.join(element.get('class', []))`: BeautifulSoup splits the class
attribute on whitespace into a list; rejoining it gives the class words
separated by single spaces. -/
def joinedClasses (n : Node) : String :=
  String.intercalate " " (pySplit ((getAttr n "class").getD ""))

/-- `(element.get('id') or '')`. -/
def idAttr (n : Node) : String := (getAttr n "id").getD ""

mutual

/-- All text-node strings below a node, in document order
(the strings BeautifulSoup's `get_text` concatenates). -/
def nodeTexts : Node → List String
  | Node.text s => [s]
  | Node.elem _ _ cs => listTexts cs

def listTexts : List Node → List String
  | [] => []
  | n :: ns => nodeTexts n ++ listTexts ns

end

mutual

/-- All descendant element nodes of a node, in document (preorder) order,
excluding the node itself — the search space of `find_all`. -/
def nodeDescElems : Node → List Node
  | Node.text _ => []
  | Node.elem _ _ cs => listDescElems cs

def listDescElems : List Node → List Node
  | [] => []
  | Node.elem t a cs :: ns =>
    Node.elem t a cs :: nodeDescElems (Node.elem t a cs) ++ listDescElems ns
  | Node.text _ :: ns => listDescElems ns

end

/-- `element.find_all(names, recursive=True)`. -/
def findAllByNames (names : List String) (n : Node) : List Node :=
  (nodeDescElems n).filter (fun c => names.contains c.tagName)

/-- `element.find_all(names, recursive=False)`: direct element children
with one of the given tag names. -/
def directChildrenByNames (names : List String) (n : Node) : List Node :=
  match n with
  | Node.elem _ _ cs => cs.filter (fun c => names.contains c.tagName)
  | Node.text _ => []

mutual

/-- Removes every `script`/`style` subtree below a node. -/
def stripScriptsNode : Node → Node
  | Node.text s => Node.text s
  | Node.elem t a cs => Node.elem t a (stripScriptsList cs)

/-- Removes every `script`/`style` subtree from a list of nodes: the effect
of `for t in element.find_all(['script','style']): t.decompose()`. -/
def stripScriptsList : List Node → List Node
  | [] => []
  | Node.elem t a cs :: ns =>
    if t == "script" || t == "style" then stripScriptsList ns
    else stripScriptsNode (Node.elem t a cs) :: stripScriptsList ns
  | Node.text s :: ns => Node.text s :: stripScriptsList ns

end

/-- The element after `extract_text` has decomposed its `script`/`style`
descendants (BeautifulSoup mutation, made explicit). -/
def decomposeScripts : Node → Node
  | Node.elem t a cs => Node.elem t a (stripScriptsList cs)
  | Node.text s => Node.text s

/-- `element.get_text()` with no separator: concatenation of all strings. -/
def getTextRaw (n : Node) : String := String.join (nodeTexts n)

/-- `element.get_text(separator=' ', strip=True)`: each string stripped,
empties dropped, the rest joined with single spaces. -/
def getTextSepStrip (n : Node) : String :=
  String.intercalate " "
    (((nodeTexts n).map pyStrip).filter (fun s => s ≠ ""))

mutual

/-- Serialization `str(element)` of the (lxml-parsed) tree. -/
def serializeNode : Node → String
  | Node.text s => s
  | Node.elem t attrs cs =>
    "<" ++ t ++ serializeAttrs attrs ++ ">" ++ serializeList cs ++ "</" ++ t ++ ">"

def serializeAttrs : List (String × String) → String
  | [] => ""
  | (k, v) :: rest => " " ++ k ++ "=" ++ "\"" ++ v ++ "\"" ++ serializeAttrs rest

def serializeList : List Node → String
  | [] => ""
  | n :: ns => serializeNode n ++ serializeList ns

end

/-! ## Data model (`models.py`) -/

/-- `models.LinkItem`. -/
structure LinkItem where
  text : String
  href : String
deriving Repr, DecidableEq

/-- `models.ImageItem`. -/
structure ImageItem where
  src : String
  alt : String
deriving Repr, DecidableEq

/-- `models.SectionContent`. -/
structure SectionContent where
  headings : List String := []
  text : String := ""
  links : List LinkItem := []
  images : List ImageItem := []
  lists : List (List String) := []
  tables : List (List (List String)) := []
deriving Repr, DecidableEq

/-- `models.Section`. -/
structure Section where
  id : String
  type : String
  label : String
  sourceUrl : String
  content : SectionContent
  rawHtml : String
  truncated : Bool
deriving Repr, DecidableEq

/-- `models.Interactions` (defaults: empty clicks, zero scrolls, empty pages). -/
structure Interactions where
  clicks : List String := []
  scrolls : Nat := 0
  pages : List String := []
deriving Repr, DecidableEq

/-- `models.ErrorInfo` (`phase` is fetch | render | parse). -/
structure ErrorInfo where
  message : String
  phase : String
deriving Repr, DecidableEq

/-- `models.MetaData` (defaults: empty strings, no canonical URL). -/
structure MetaData where
  title : String := ""
  description : String := ""
  language : String := ""
  canonical : Option String := none
deriving Repr, DecidableEq

/-- `models.ScrapeResult`. -/
structure ScrapeResult where
  url : String
  scrapedAt : String
  meta : MetaData
  sections : List Section
  interactions : Interactions
  errors : List ErrorInfo := []
deriving Repr, DecidableEq

/-- `models.ScrapeResponse`. -/
structure ScrapeResponse where
  result : ScrapeResult
deriving Repr, DecidableEq

/-! ## URL resolution (`parser.normalize_url`) -/

/-- Scheme of a URL: the characters before the first `:`
(`urlparse(base_url).scheme` for the absolute bases used here). -/
def schemeOf (base : String) : String :=
  String.mk (base.data.takeWhile (fun c => c ≠ ':'))

/-- `scheme://host` part of an absolute URL. -/
def schemeAndHost (base : String) : String :=
  let cs := base.data
  let scheme := cs.takeWhile (fun c => c ≠ ':')
  let rest := cs.drop (scheme.length + 3)
  schemeOf base ++ "://" ++ String.mk (rest.takeWhile (fun c => c ≠ '/'))

/-- The base URL up to (excluding) its fragment. -/
def dropFragment (base : String) : String :=
  String.mk (base.data.takeWhile (fun c => c ≠ '#'))

/-- The base URL up to and including the last `/` of its defragmented form. -/
def upToLastSlash (base : String) : String :=
  String.mk (((dropFragment base).data.reverse.dropWhile (fun c => c ≠ '/')).reverse)

/-- Model of the Python standard library's `urllib.parse.urljoin` for the
reference shapes this scraper produces: absolute `http(s)` targets are kept,
fragment-only references replace the base's fragment, root-relative paths
replace the base's path, and other relative paths replace its last segment.
The bases fed to it by this repository are absolute `http(s)` URLs
(`models.ScrapeRequest` enforces the scheme). -/
def urljoin (base url : String) : String :=
  if url == "" then base
  else if strStartsWith url "http://" || strStartsWith url "https://" then url
  else if strStartsWith url "//" then schemeOf base ++ ":" ++ url
  else if strStartsWith url "#" then dropFragment base ++ url
  else if strStartsWith url "/" then schemeAndHost base ++ url
  else upToLastSlash base ++ url

/-- `parser.normalize_url`: convert relative URLs to absolute URLs. -/
def normalize_url (base_url url : String) : String :=
  if url == "" then ""
  else if strStartsWith url "//" then schemeOf base_url ++ ":" ++ url
  else urljoin base_url url

/-! ## Parsing and extraction (`parser.py`) -/

/-- `parser.clean_text`: collapse whitespace runs to single spaces, strip. -/
def clean_text (s : String) : String :=
  String.mk (stripChars (collapseWs s.data))

/-- `parser.generate_section_id` builds `"{tag}-{classes}-{index}"` and takes
the first 12 hex digits of its MD5.  The digest step is kept as `md5hex12`,
an uninterpreted stand-in (no claim inspects digest values). -/
def md5hex12 (s : String) : String := s

/-- `parser.generate_section_id`. -/
def generate_section_id (element : Node) (index : Nat) : String :=
  let classes := String.intercalate " " (pySplit ((getAttr element "class").getD ""))
  md5hex12 (element.tagName ++ "-" ++ classes ++ "-" ++ toString index)

/-- `parser.classify_section_type`: ordered tag, keyword and structural rules.
(The source also computes the element's cleaned text, but never uses it.) -/
def classify_section_type (element : Node) (first_heading : String := "") : String :=
  let tag_name := pyLower element.tagName
  let classes := pyLower (joinedClasses element)
  let id_attr := pyLower (idAttr element)
  if tag_name == "nav" then "nav"
  else if tag_name == "footer" then "footer"
  else if tag_name == "header" then "hero"
  else if ["hero", "banner", "jumbotron"].any
      (fun k => strContains classes k || strContains id_attr k) then "hero"
  else if ["pricing", "price", "plan"].any
      (fun k => strContains classes k || strContains id_attr k) then "pricing"
  else if ["faq", "question", "accordion"].any
      (fun k => strContains classes k || strContains id_attr k) then "faq"
  else if ["grid", "cards", "features"].any
      (fun k => strContains classes k || strContains id_attr k) then "grid"
  else if strContains classes "list" || strContains id_attr "list" then "list"
  else if 2 ≤ (findAllByNames ["ul", "ol"] element).length then "list"
  else "section"

/-- `parser.generate_label`. -/
def generate_label (element : Node) (first_heading : String := "") : String :=
  if first_heading ≠ "" then strTake first_heading 60
  else
    let aria_label := (getAttr element "aria-label").getD ""
    if aria_label ≠ "" then strTake (clean_text aria_label) 60
    else
      let text := clean_text (getTextRaw element)
      if text ≠ "" then
        let allWords := pySplit text
        let words := allWords.take 7
        let label := String.intercalate " " words
        let label := if words.length == 7 && 7 < allWords.length
          then label ++ "..." else label
        strTake label 60
      else "Section " ++ element.tagName

/-- `parser.extract_headings`. -/
def extract_headings (element : Node) : List String :=
  (findAllByNames ["h1", "h2", "h3", "h4", "h5", "h6"] element).filterMap
    (fun tag =>
      let text := clean_text (getTextRaw tag)
      if text ≠ "" then some text else none)

/-- `parser.extract_text`: decompose `script`/`style`, then
`get_text(separator=' ', strip=True)`, then `clean_text`. -/
def extract_text (element : Node) : String :=
  clean_text (getTextSepStrip (decomposeScripts element))

/-- Loop body of `parser.extract_links`, carrying the `seen_hrefs` set. -/
def extractLinksGo (base_url : String) : List Node → List String → List LinkItem
  | [], _ => []
  | a_tag :: rest, seen =>
    let href := (getAttr a_tag "href").getD ""
    let absolute_href := normalize_url base_url href
    if absolute_href == "" || seen.contains absolute_href
        || strStartsWith absolute_href "#" then
      extractLinksGo base_url rest seen
    else
      let text := clean_text (getTextRaw a_tag)
      { text := if text == "" then absolute_href else text
        href := absolute_href } :: extractLinksGo base_url rest (absolute_href :: seen)

/-- `parser.extract_links`: anchors with an `href` attribute, resolved
against the base URL, deduplicated on the resolved URL. -/
def extract_links (element : Node) (base_url : String) : List LinkItem :=
  extractLinksGo base_url
    ((nodeDescElems element).filter
      (fun c => c.tagName == "a" && (getAttr c "href").isSome)) []

/-- Loop body of `parser.extract_images`, carrying the `seen_srcs` set. -/
def extractImagesGo (base_url : String) : List Node → List String → List ImageItem
  | [], _ => []
  | img_tag :: rest, seen =>
    let src := (getAttr img_tag "src").getD ""
    let absolute_src := normalize_url base_url src
    if absolute_src == "" || seen.contains absolute_src then
      extractImagesGo base_url rest seen
    else
      { src := absolute_src
        alt := clean_text ((getAttr img_tag "alt").getD "") }
        :: extractImagesGo base_url rest (absolute_src :: seen)

/-- `parser.extract_images`. -/
def extract_images (element : Node) (base_url : String) : List ImageItem :=
  extractImagesGo base_url
    ((nodeDescElems element).filter
      (fun c => c.tagName == "img" && (getAttr c "src").isSome)) []

/-- `parser.extract_lists`: each `ul`/`ol` becomes its direct `li` children's
non-empty cleaned texts; empty item lists are dropped. -/
def extract_lists (element : Node) : List (List String) :=
  (findAllByNames ["ul", "ol"] element).filterMap
    (fun list_tag =>
      let items := (directChildrenByNames ["li"] list_tag).filterMap
        (fun li =>
          let text := clean_text (getTextRaw li)
          if text ≠ "" then some text else none)
      if items.isEmpty then none else some items)

/-- `parser.extract_tables`. -/
def extract_tables (element : Node) : List (List (List String)) :=
  (findAllByNames ["table"] element).filterMap
    (fun table_tag =>
      let rows := (findAllByNames ["tr"] table_tag).filterMap
        (fun tr =>
          let cells := (findAllByNames ["td", "th"] tr).map
            (fun cell => clean_text (getTextRaw cell))
          if cells.isEmpty then none else some cells)
      if rows.isEmpty then none else some rows)

/-- `parser.truncate_html`: cap at `max_length` (default 500) characters,
appending a `'...'` marker when cut. -/
def truncate_html (html : String) (max_length : Nat := 500) : String × Bool :=
  if html.length ≤ max_length then (html, false)
  else (String.mk (html.data.take max_length) ++ "...", true)

/-- `parser.extract_meta`. -/
def extract_meta (soup : Node) : MetaData :=
  let title := match (findAllByNames ["title"] soup).head? with
    | some title_tag => clean_text (getTextRaw title_tag)
    | none => ""
  let description := match (nodeDescElems soup).find?
      (fun n => n.tagName == "meta" && (getAttr n "name").getD "" == "description") with
    | some desc_tag =>
      let content := (getAttr desc_tag "content").getD ""
      if content ≠ "" then clean_text content else ""
    | none => ""
  let language := match (findAllByNames ["html"] soup).head? with
    | some html_tag => (getAttr html_tag "lang").getD ""
    | none => ""
  let canonical := match (nodeDescElems soup).find?
      (fun n => n.tagName == "link"
        && (pySplit ((getAttr n "rel").getD "")).contains "canonical") with
    | some canonical_tag =>
      match getAttr canonical_tag "href" with
      | some href => if href ≠ "" then some href else none
      | none => none
    | none => none
  { title := title, description := description
    language := language, canonical := canonical }

/-- The semantic landmark tag names searched first by `detect_sections`. -/
def landmarkTagNames : List String :=
  ["header", "nav", "main", "section", "article", "aside", "footer"]

/-- Landmark selection of `parser.detect_sections`: semantic landmarks in
document order; if none exist, the direct `div` children of `body` whose
cleaned text is longer than 50 characters. -/
def selectLandmarks (soup : Node) : List Node :=
  let landmarks := findAllByNames landmarkTagNames soup
  if landmarks.isEmpty then
    match (findAllByNames ["body"] soup).head? with
    | some body =>
      (directChildrenByNames ["div"] body).filter
        (fun child => 50 < (clean_text (getTextRaw child)).length)
    | none => []
  else landmarks

/-- Per-landmark body of the `detect_sections` loop.  `extract_text`
decomposes the element's `script`/`style` subtrees in the source; the
mutated element (`decomposeScripts element`) is what the subsequent
extractions and `str(element)` observe. -/
def buildSection (base_url : String) (index : Nat) (element : Node) : Option Section :=
  if extract_text element == "" || (extract_text element).length < 10 then none
  else
    some
      { id := generate_section_id (decomposeScripts element) index
        type := classify_section_type (decomposeScripts element)
          ((extract_headings element).headD "")
        label := generate_label (decomposeScripts element)
          ((extract_headings element).headD "")
        sourceUrl := base_url
        content :=
          { headings := extract_headings element
            text := extract_text element
            links := extract_links (decomposeScripts element) base_url
            images := extract_images (decomposeScripts element) base_url
            lists := extract_lists (decomposeScripts element)
            tables := extract_tables (decomposeScripts element) }
        rawHtml := (truncate_html (serializeNode (decomposeScripts element))).1
        truncated := (truncate_html (serializeNode (decomposeScripts element))).2 }

/-- `parser.detect_sections`. -/
def detect_sections (soup : Node) (base_url : String) : List Section :=
  ((selectLandmarks soup).enum).filterMap
    (fun p => buildSection base_url p.1 p.2)

/-- The framework signatures scanned for by `should_fallback_to_js`. -/
def js_frameworks : List String :=
  ["react", "vue", "angular", "next.js", "__next", "nuxt"]

/-- `parser.should_fallback_to_js`: decide whether JS rendering is needed. -/
def should_fallback_to_js (sections : List Section) (html : String) : Bool :=
  let total_text_length := ((sections.map (fun s => s.content.text.length)).sum)
  if total_text_length < 100 then true
  else
    let html_lower := pyLower html
    match js_frameworks.find? (fun framework => strContains html_lower framework) with
    | some _ => if 500 < total_text_length then false else true
    | none => false

/-! ## Static scraper (`static_scraper.py`)

The network fetch is an effect; its outcome (and, when fetched, the parsed
tree) is an explicit parameter of the pure pipeline. -/

/-- Outcome of the static fetch/parse effects in `StaticScraper.scrape`:
the three fetch-error branches, a successful fetch that parses, and a
successful fetch whose parsing raises. -/
inductive StaticOutcome where
  | fetchTimeout
  | httpStatusError (code : Nat)
  | fetchFailed (msg : String)
  | fetched (doc : Node) (html : String)
  | parseFailed (html : String) (msg : String)

/-- Result dictionary of `StaticScraper.scrape` (keys `meta`, `sections`,
`raw_html`, `needs_js_fallback`, `errors`). -/
structure StaticResult where
  meta : MetaData
  sections : List Section
  raw_html : String
  needs_js_fallback : Bool
  errors : List ErrorInfo
deriving Repr, DecidableEq

namespace StaticScraper

/-- The request timeout the orchestrator configures (`StaticScraper(timeout=10)`). -/
def timeout : Nat := 10

/-- `StaticScraper._empty_meta`. -/
def empty_meta : MetaData :=
  { title := "", description := "", language := "", canonical := none }

/-- `StaticScraper.scrape`, branch by branch. -/
def scrape (url : String) : StaticOutcome → StaticResult
  | StaticOutcome.fetchTimeout =>
    { meta := empty_meta, sections := [], raw_html := ""
      needs_js_fallback := false
      errors := [{ message := "Request timeout after " ++ toString timeout ++ " seconds"
                   phase := "fetch" }] }
  | StaticOutcome.httpStatusError code =>
    { meta := empty_meta, sections := [], raw_html := ""
      needs_js_fallback := false
      errors := [{ message := "HTTP error: " ++ toString code, phase := "fetch" }] }
  | StaticOutcome.fetchFailed msg =>
    { meta := empty_meta, sections := [], raw_html := ""
      needs_js_fallback := false
      errors := [{ message := "Failed to fetch URL: " ++ msg, phase := "fetch" }] }
  | StaticOutcome.fetched doc html =>
    let sections := detect_sections doc url
    { meta := extract_meta doc, sections := sections, raw_html := html
      needs_js_fallback := should_fallback_to_js sections html
      errors := [] }
  | StaticOutcome.parseFailed html msg =>
    { meta := empty_meta, sections := [], raw_html := html
      needs_js_fallback := true
      errors := [{ message := "Failed to parse HTML: " ++ msg, phase := "parse" }] }

end StaticScraper

/-! ## JavaScript scraper (`js_scraper.py`) -/

/-- What the browser-side interaction phases contributed to the mutable
`interactions` dictionary: tab/load-more clicks, scroll count, and the URLs
pagination appended after the pre-seeded seed URL. -/
structure InteractionEffects where
  clicks : List String := []
  scrolls : Nat := 0
  extraPages : List String := []
deriving Repr, DecidableEq

/-- Control path taken by `JavaScriptScraper.scrape`: success, parse
failure, navigation failure (the `_error_result` branch taken when
`page.goto` raises a non-timeout error), or the outer browser-error branch.
`gotoTimedOut` records whether `page.goto` raised `PlaywrightTimeout`
(which only appends an error and continues). -/
inductive JsPath where
  | success (gotoTimedOut : Bool) (eff : InteractionEffects) (doc : Node)
  | parseFailed (gotoTimedOut : Bool) (eff : InteractionEffects) (msg : String)
  | navFailed (msg : String)
  | browserFailed (gotoTimedOut : Bool) (eff : InteractionEffects) (msg : String)

/-- Result dictionary of `JavaScriptScraper.scrape` (keys `meta`,
`sections`, `interactions`, `errors`). -/
structure JsResult where
  meta : MetaData
  sections : List Section
  interactions : Interactions
  errors : List ErrorInfo
deriving Repr, DecidableEq

namespace JavaScriptScraper

/-- `self.max_depth = 3`. -/
def max_depth : Nat := 3

/-- `JavaScriptScraper._empty_meta`. -/
def empty_meta : MetaData :=
  { title := "", description := "", language := "", canonical := none }

/-- The error `page.goto` contributes when it times out. -/
def gotoErrors (gotoTimedOut : Bool) : List ErrorInfo :=
  if gotoTimedOut then [{ message := "Page load timeout", phase := "render" }] else []

/-- The `interactions` dictionary after `_perform_interactions`: pre-seeded
with the seed URL, then extended by the interaction effects. -/
def builtInteractions (url : String) (eff : InteractionEffects) : Interactions :=
  { clicks := eff.clicks, scrolls := eff.scrolls, pages := url :: eff.extraPages }

/-- `JavaScriptScraper._error_result`: note `pages` is the empty list, not
the pre-seeded one. -/
def error_result (errors : List ErrorInfo) : JsResult :=
  { meta := empty_meta, sections := []
    interactions := { clicks := [], scrolls := 0, pages := [] }
    errors := errors }

/-- `JavaScriptScraper.scrape`, path by path. -/
def scrape (url : String) : JsPath → JsResult
  | JsPath.success gt eff doc =>
    { meta := extract_meta doc
      sections := detect_sections doc url
      interactions := builtInteractions url eff
      errors := gotoErrors gt }
  | JsPath.parseFailed gt eff msg =>
    { meta := empty_meta, sections := []
      interactions := builtInteractions url eff
      errors := gotoErrors gt ++ [{ message := "Failed to parse HTML: " ++ msg
                                    phase := "parse" }] }
  | JsPath.navFailed msg =>
    error_result [{ message := "Failed to load page: " ++ msg, phase := "render" }]
  | JsPath.browserFailed gt eff msg =>
    { meta := empty_meta, sections := []
      interactions := builtInteractions url eff
      errors := gotoErrors gt ++ [{ message := "Browser error: " ++ msg
                                    phase := "render" }] }

/-- The ordered load-more selectors of `_click_load_more`. -/
def load_more_selectors : List String :=
  ["button:has-text(\x22Load more\x22)",
   "button:has-text(\x22Show more\x22)",
   "a:has-text(\x22Load more\x22)",
   "a:has-text(\x22Show more\x22)",
   "[class*=\x22load-more\x22]",
   "[class*=\x22show-more\x22]"]

end JavaScriptScraper

/-- Abstract browser page for the load-more phase: `tryClick st sel` is
`some st'` when `query_selector(sel)` finds a visible element and clicking
it succeeds, and `none` when the selector has no visible match or the click
raises (both silently continue to the next selector). -/
structure PageModel (σ : Type) where
  tryClick : σ → String → Option σ

namespace JavaScriptScraper

/-- Inner selector loop of one `_click_load_more` depth iteration: the
first selector that is found, visible and clickable wins. -/
def clickFirstSelector {σ : Type} (m : PageModel σ) (st : σ) :
    List String → Option (σ × String)
  | [] => none
  | sel :: rest =>
    match m.tryClick st sel with
    | some st' => some (st', "Load More: " ++ sel)
    | none => clickFirstSelector m st rest

/-- Depth loop of `_click_load_more`, accumulating the click-log entries it
appends to `interactions['clicks']`; stops early when a full depth
iteration clicks nothing. -/
def clickLoadMoreAux {σ : Type} (m : PageModel σ) :
    Nat → σ → List String → σ × List String
  | 0, st, log => (st, log)
  | d + 1, st, log =>
    match clickFirstSelector m st load_more_selectors with
    | some (st', entry) => clickLoadMoreAux m d st' (log ++ [entry])
    | none => (st, log)

/-- `JavaScriptScraper._click_load_more`: up to `max_depth` load-more clicks. -/
def click_load_more {σ : Type} (m : PageModel σ) (st : σ) : σ × List String :=
  clickLoadMoreAux m max_depth st []

end JavaScriptScraper

/-! ## Orchestrator (`scraper.py`) -/

namespace UniversalScraper

/-- `self.total_timeout = 120` (seconds). -/
def total_timeout : Nat := 120

/-- `UniversalScraper._create_fallback_section`. -/
def create_fallback_section (url : String) : List Section :=
  [{ id := "fallback-0"
     type := "unknown"
     label := "Unable to extract structured content"
     sourceUrl := url
     content :=
       { headings := []
         text := "No content could be extracted from this page."
         links := [], images := [], lists := [], tables := [] }
     rawHtml := "<div>No content</div>"
     truncated := false }]

/-- `UniversalScraper._format_response` (`scrapedAt` is
`datetime.utcnow().isoformat() + 'Z'`; the clock reading is the `now`
parameter). -/
def format_response (url now : String) (meta : MetaData) (sections : List Section)
    (interactions : Interactions) (errors : List ErrorInfo) : ScrapeResponse :=
  let section_models := sections.map (fun s =>
    { id := s.id, type := s.type, label := s.label, sourceUrl := s.sourceUrl
      content :=
        { headings := s.content.headings, text := s.content.text
          links := s.content.links, images := s.content.images
          lists := s.content.lists, tables := s.content.tables }
      rawHtml := s.rawHtml, truncated := s.truncated : Section })
  let interactions_model : Interactions :=
    { clicks := interactions.clicks, scrolls := interactions.scrolls
      pages := interactions.pages }
  { result :=
    { url := url
      scrapedAt := now ++ "Z"
      meta := meta
      sections := section_models
      interactions := interactions_model
      errors := errors } }

/-- `UniversalScraper._scrape_internal`: static first, JS when the static
scraper asked for it, then the fallback-section guarantee, then formatting.
Both sub-results are passed as values; the static branch never reads
`js_result`. -/
def scrape_internal (url now : String) (static_result : StaticResult)
    (js_result : JsResult) : ScrapeResponse :=
  let all_errors := static_result.errors
  let needs_js := static_result.needs_js_fallback
  let step2 :=
    if needs_js then
      (js_result.meta, js_result.sections, js_result.interactions,
       all_errors ++ js_result.errors)
    else
      (static_result.meta, static_result.sections,
       ({ clicks := [], scrolls := 0, pages := [url] } : Interactions),
       all_errors)
  let step3 :=
    if step2.2.1.isEmpty then
      (create_fallback_section url,
       step2.2.2.2 ++ [{ message := "No sections detected in page", phase := "parse" }])
    else (step2.2.1, step2.2.2.2)
  format_response url now step2.1 step3.1 step2.2.2.1 step3.2

/-- Outcome of one orchestrated scrape: either `_scrape_internal` completed
within the global deadline (with the recorded static and JS effect
outcomes), or the 120-second deadline expired. -/
inductive ScrapeOutcome where
  | completed (so : StaticOutcome) (jp : JsPath)
  | deadlineExpired

/-- `UniversalScraper.scrape`: run `_scrape_internal` under the global
timeout; on `asyncio.TimeoutError` return the synthetic timeout response. -/
def scrape (url now : String) : ScrapeOutcome → ScrapeResponse
  | ScrapeOutcome.completed so jp =>
    scrape_internal url now (StaticScraper.scrape url so) (JavaScriptScraper.scrape url jp)
  | ScrapeOutcome.deadlineExpired =>
    { result :=
      { url := url
        scrapedAt := now ++ "Z"
        meta := {}
        sections := []
        interactions := {}
        errors := [{ message := "Total scrape timeout after "
                       ++ toString total_timeout ++ " seconds"
                     phase := "fetch" }] } }

end UniversalScraper

/-! ## Specification-side definitions

These follow the wording of the specification / claims, to be compared
against the definitions embedded from the source. -/

/-- Spec: "the sum of all sections' cleaned text lengths". -/
def totalTextLength (sections : List Section) : Nat :=
  (sections.map (fun s => s.content.text.length)).sum

/-- Spec: one of the fixed framework signatures occurs case-insensitively
in the raw markup. -/
def hasFrameworkSignature (html : String) : Bool :=
  js_frameworks.any (fun framework => strContains (pyLower html) framework)

/-- First-match-wins evaluation of an ordered rule list: the result of the
first rule whose condition holds, else the default. -/
def firstMatchWins (rules : List (Bool × String)) (dflt : String) : String :=
  match rules.find? (fun r => r.1) with
  | some r => r.2
  | none => dflt

/-- Does one of the keywords occur in the element's (lowercased, joined)
class list or id attribute? -/
def keywordHit (element : Node) (keys : List String) : Bool :=
  keys.any (fun k => strContains (pyLower (joinedClasses element)) k
    || strContains (pyLower (idAttr element)) k)

/-- The ordered rule list exactly as the claim states it: tag rules,
the four keyword groups, then the structural heuristic — with no `list`
keyword rule. -/
def claimedClassifyRules (element : Node) : List (Bool × String) :=
  [ (pyLower element.tagName == "nav", "nav"),
    (pyLower element.tagName == "footer", "footer"),
    (pyLower element.tagName == "header", "hero"),
    (keywordHit element ["hero", "banner", "jumbotron"], "hero"),
    (keywordHit element ["pricing", "price", "plan"], "pricing"),
    (keywordHit element ["faq", "question", "accordion"], "faq"),
    (keywordHit element ["grid", "cards", "features"], "grid"),
    (decide (2 ≤ (findAllByNames ["ul", "ol"] element).length), "list") ]

/-- Classification as the claim states it (first matching rule wins,
default `section`). -/
def spec_classify_claimed (element : Node) : String :=
  firstMatchWins (claimedClassifyRules element) "section"

/-- The amended rule list: as claimed, plus the source's
`list`-keyword rule between the keyword group and the structural
heuristic. -/
def amendedClassifyRules (element : Node) : List (Bool × String) :=
  [ (pyLower element.tagName == "nav", "nav"),
    (pyLower element.tagName == "footer", "footer"),
    (pyLower element.tagName == "header", "hero"),
    (keywordHit element ["hero", "banner", "jumbotron"], "hero"),
    (keywordHit element ["pricing", "price", "plan"], "pricing"),
    (keywordHit element ["faq", "question", "accordion"], "faq"),
    (keywordHit element ["grid", "cards", "features"], "grid"),
    (strContains (pyLower (joinedClasses element)) "list"
      || strContains (pyLower (idAttr element)) "list", "list"),
    (decide (2 ≤ (findAllByNames ["ul", "ol"] element).length), "list") ]

/-- Classification per the amended claim. -/
def spec_classify (element : Node) : String :=
  firstMatchWins (amendedClassifyRules element) "section"

/-- Direct element children of a node. -/
def directChildElems (n : Node) : List Node :=
  match n with
  | Node.elem _ _ cs => cs.filter (fun c => c.tagName ≠ "")
  | Node.text _ => []

/-- Fallback candidates exactly as the claim states them: every direct
child of `body` whose cleaned text is longer than 50 characters. -/
def spec_fallback_candidates_claimed (soup : Node) : List Node :=
  match (findAllByNames ["body"] soup).head? with
  | some body =>
    (directChildElems body).filter
      (fun child => 50 < (clean_text (getTextRaw child)).length)
  | none => []

/-- Fallback candidates per the amended claim: only the direct `div`
children of `body` whose cleaned text is longer than 50 characters. -/
def spec_fallback_candidates (soup : Node) : List Node :=
  match (findAllByNames ["body"] soup).head? with
  | some body =>
    (directChildElems body).filter
      (fun child => child.tagName == "div"
        && decide (50 < (clean_text (getTextRaw child)).length))
  | none => []

/-- The three fetch-error branches of `StaticScraper.scrape` (request
timeout, non-2xx HTTP status, transport error). -/
def isFetchError : StaticOutcome → Bool
  | StaticOutcome.fetchTimeout => true
  | StaticOutcome.httpStatusError _ => true
  | StaticOutcome.fetchFailed _ => true
  | StaticOutcome.fetched _ _ => false
  | StaticOutcome.parseFailed _ _ => false

/-- The visited-pages sequence as characterized by the amended claim:
empty on deadline expiry and on the dynamic navigation-failure path,
otherwise pre-seeded with the seed URL. -/
def expected_visited_pages (url : String) :
    UniversalScraper.ScrapeOutcome → List String
  | UniversalScraper.ScrapeOutcome.deadlineExpired => []
  | UniversalScraper.ScrapeOutcome.completed so jp =>
    if (StaticScraper.scrape url so).needs_js_fallback then
      match jp with
      | JsPath.navFailed _ => []
      | JsPath.success _ eff _ => url :: eff.extraPages
      | JsPath.parseFailed _ eff _ => url :: eff.extraPages
      | JsPath.browserFailed _ eff _ => url :: eff.extraPages
    else [url]

/-! ## Concrete example documents and values -/

/-- A landmark holding a single in-page anchor `<a href="#top">Top</a>`. -/
def anchorLandmark : Node :=
  Node.elem "div" [] [Node.elem "a" [("href", "#top")] [Node.text "Top"]]

/-- A `div` with class `list` and no descendant lists. -/
def listClassDiv : Node :=
  Node.elem "div" [("class", "list")] [Node.text "hello"]

/-- A document with no semantic landmarks whose `body` has a single `p`
child with 71 characters of text. -/
def pSoupDoc : Node :=
  Node.elem "[document]" []
    [Node.elem "html" []
      [Node.elem "body" []
        [Node.elem "p" []
          [Node.text
            "This paragraph has definitely more than fifty characters of text in it."]]]]

/-- The `p` child of `pSoupDoc`'s body. -/
def pSoupChild : Node :=
  Node.elem "p" []
    [Node.text
      "This paragraph has definitely more than fifty characters of text in it."]

/-- A landmark-free document whose `body` has a single long `div` child. -/
def divSoupDoc : Node :=
  Node.elem "[document]" []
    [Node.elem "html" []
      [Node.elem "body" []
        [Node.elem "div" []
          [Node.text
            "This division has definitely more than fifty characters of text in it."]]]]

/-- A document with one `section` landmark whose serialized markup is
800 characters (781 characters of text inside `<section>...</section>`). -/
def longSectionDoc : Node :=
  Node.elem "[document]" []
    [Node.elem "html" []
      [Node.elem "body" []
        [Node.elem "section" [] [Node.text (String.mk (List.replicate 781 'a'))]]]]

/-- A document with one small `section` landmark (12 characters of text). -/
def smallSectionDoc : Node :=
  Node.elem "[document]" []
    [Node.elem "html" []
      [Node.elem "body" []
        [Node.elem "section" [] [Node.text "0123456789ab"]]]]

/-- The section `detect_sections` extracts from `smallSectionDoc`. -/
def smallSection : Section :=
  { id := "section--0"
    type := "section"
    label := "0123456789ab"
    sourceUrl := "http://e.com/"
    content :=
      { headings := [], text := "0123456789ab"
        links := [], images := [], lists := [], tables := [] }
    rawHtml := "<section>0123456789ab</section>"
    truncated := false }

/-- A concrete JS result value (for instantiating independence statements). -/
def jsResultA : JsResult :=
  { meta := {}, sections := [], interactions := {}, errors := [] }

/-- A second, different concrete JS result value. -/
def jsResultB : JsResult :=
  { meta := {}, sections := []
    interactions := { clicks := ["c"], scrolls := 2, pages := ["p"] }
    errors := [{ message := "m", phase := "render" }] }

/-! ## Shared helper lemmas -/

theorem scrape_internal_sections_ne_nil (url now : String) (sr : StaticResult)
    (jr : JsResult) :
    (UniversalScraper.scrape_internal url now sr jr).result.sections ≠ [] := by
  unfold UniversalScraper.scrape_internal UniversalScraper.format_response
  by_cases h : sr.needs_js_fallback
  · by_cases h2 : jr.sections.isEmpty <;>
      simp_all [UniversalScraper.create_fallback_section, List.isEmpty_iff]
  · by_cases h2 : sr.sections.isEmpty <;>
      simp_all [UniversalScraper.create_fallback_section, List.isEmpty_iff]

theorem truncate_html_cap (html : String) :
    (truncate_html html).1.length ≤ 503 ∧
    ((truncate_html html).2 = true ↔ 500 < (truncate_html html).1.length) := by
  unfold truncate_html
  by_cases h : html.length ≤ 500
  · rw [if_pos h]
    refine ⟨?_, ?_⟩
    · show html.length ≤ 503
      omega
    · show false = true ↔ 500 < html.length
      simp only [Bool.false_eq_true, false_iff]
      omega
  · rw [if_neg h]
    have hd : html.length = html.data.length := rfl
    have hlen : (String.mk (html.data.take 500) ++ "...").length = 503 := by
      show (html.data.take 500 ++ "...".data).length = 503
      rw [List.length_append, List.length_take]
      have h3 : "...".data.length = 3 := rfl
      omega
    refine ⟨?_, ?_⟩
    · show (String.mk (html.data.take 500) ++ "...").length ≤ 503
      omega
    · show true = true ↔ 500 < (String.mk (html.data.take 500) ++ "...").length
      rw [hlen]
      simp

theorem clickLoadMoreAux_length {σ : Type} (m : PageModel σ) :
    ∀ (d : Nat) (st : σ) (log : List String),
      ((JavaScriptScraper.clickLoadMoreAux m d st log).2).length ≤ log.length + d := by
  intro d
  induction d with
  | zero =>
    intro st log
    simp [JavaScriptScraper.clickLoadMoreAux]
  | succ n ih =>
    intro st log
    unfold JavaScriptScraper.clickLoadMoreAux
    cases h : JavaScriptScraper.clickFirstSelector m st
        JavaScriptScraper.load_more_selectors with
    | none =>
      simp only [h]
      omega
    | some p =>
      obtain ⟨st2, entry⟩ := p
      simp only [h]
      have hrec := ih st2 (log ++ [entry])
      rw [List.length_append] at hrec
      exact Nat.le_trans hrec (by simp; omega)

theorem firstMatchWins_cons (c : Bool) (r : String) (rest : List (Bool × String))
    (d : String) :
    firstMatchWins ((c, r) :: rest) d = if c then r else firstMatchWins rest d := by
  unfold firstMatchWins
  cases c <;> simp [List.find?]

theorem firstMatchWins_nil (d : String) : firstMatchWins [] d = d := rfl

theorem fallbackFilter_eq (cs : List Node) :
    (cs.filter (fun c => ["div"].contains c.tagName)).filter
        (fun child => decide (50 < (clean_text (getTextRaw child)).length))
      = (cs.filter (fun c => decide (c.tagName ≠ ""))).filter
        (fun child => child.tagName == "div"
          && decide (50 < (clean_text (getTextRaw child)).length)) := by
  rw [List.filter_filter, List.filter_filter]
  apply List.filter_congr
  intro c _
  by_cases hdiv : c.tagName = "div"
  · simp [hdiv]
  · simp [hdiv]

/-! ## Claim theorems -/

/-- Claim C1 (amended): on every outcome on which `_scrape_internal`
completes within the global deadline — static path, dynamic path, and every
fetch/parse failure — the returned result's sections list is non-empty, a
synthetic placeholder section being substituted when extraction yields
none.  (On global-deadline expiry the sections list is empty; see the
counterexample.) -/
theorem scrape_sections_nonempty_of_completed (url now : String)
    (so : StaticOutcome) (jp : JsPath) :
    (UniversalScraper.scrape url now
      (UniversalScraper.ScrapeOutcome.completed so jp)).result.sections ≠ [] :=
  scrape_internal_sections_ne_nil url now
    (StaticScraper.scrape url so) (JavaScriptScraper.scrape url jp)

/-- Claim C1 counterexample: on global-deadline expiry the orchestrator
returns a result whose sections list is empty, so `sections` is not
"never empty". -/
theorem scrape_deadline_sections_empty :
    (UniversalScraper.scrape "http://example.com/" "2026-10-12T00:00:00"
      UniversalScraper.ScrapeOutcome.deadlineExpired).result.sections = [] := rfl

/-- Claim C2: `should_fallback_to_js` returns true iff the total cleaned
text length is below 100, or a framework signature occurs case-insensitively
in the raw markup and that total does not exceed 500. -/
theorem should_fallback_to_js_iff (sections : List Section) (html : String) :
    should_fallback_to_js sections html = true ↔
      (totalTextLength sections < 100 ∨
        (hasFrameworkSignature html = true ∧ totalTextLength sections ≤ 500)) := by
  unfold should_fallback_to_js totalTextLength hasFrameworkSignature
  by_cases h : (sections.map (fun s => s.content.text.length)).sum < 100
  · simp [h]
  · simp only [h, if_false]
    cases hf : js_frameworks.find? (fun framework => strContains (pyLower html) framework) with
    | none =>
      have hany : js_frameworks.any (fun framework => strContains (pyLower html) framework) = false := by
        rw [Bool.eq_false_iff]
        intro hx
        obtain ⟨x, hmem, hpx⟩ := List.any_eq_true.mp hx
        exact absurd hpx (by simpa using List.find?_eq_none.mp hf x hmem)
      simp [hany, h]
    | some fw =>
      have hany : js_frameworks.any (fun framework => strContains (pyLower html) framework) = true :=
        List.any_eq_true.mpr ⟨fw, List.mem_of_find?_eq_some hf, List.find?_some hf⟩
      by_cases h5 : 500 < (sections.map (fun s => s.content.text.length)).sum
      · simp only [h5, if_true]
        simp [hany, h]
        omega
      · simp only [h5, if_false]
        simp [hany, h]
        omega

/-- Claim C3: when the 120-second global deadline expires, the returned
result has empty sections, default metadata, default interactions, and
exactly one `fetch`-phase error whose message mentions the timeout
duration. -/
theorem scrape_deadline_result_shape (url now : String) :
    (UniversalScraper.scrape url now
        UniversalScraper.ScrapeOutcome.deadlineExpired).result.sections = [] ∧
    (UniversalScraper.scrape url now
        UniversalScraper.ScrapeOutcome.deadlineExpired).result.meta = ({} : MetaData) ∧
    (UniversalScraper.scrape url now
        UniversalScraper.ScrapeOutcome.deadlineExpired).result.interactions
      = ({} : Interactions) ∧
    (UniversalScraper.scrape url now
        UniversalScraper.ScrapeOutcome.deadlineExpired).result.errors.length = 1 ∧
    (UniversalScraper.scrape url now
        UniversalScraper.ScrapeOutcome.deadlineExpired).result.errors.all
      (fun e => e.phase == "fetch"
        && strContains e.message (toString UniversalScraper.total_timeout)) = true :=
  ⟨rfl, rfl, rfl, rfl, rfl⟩

/-- Claim C4 (code bug): the pure in-page anchor `<a href="#top">` is NOT
dropped — `startswith('#')` is tested on the resolved absolute URL, which
never starts with `#` for an absolute base, contradicting the source's own
"Skip duplicates and empty/anchor-only links" comment and the spec. -/
theorem extract_links_keeps_inpage_anchor :
    extract_links anchorLandmark "http://example.com/"
      = [{ text := "Top", href := "http://example.com/#top" }] := rfl

/-- Claim C5 (amended): every emitted section's stored rawHtml has length
at most 503 (the 500-character cap plus the 3-character `'...'` marker),
and `truncated` is true iff the serialized markup was cut, equivalently iff
the stored rawHtml is longer than 500 characters. -/
theorem detect_sections_rawHtml_cap (soup : Node) (base_url : String) (s : Section)
    (hs : s ∈ detect_sections soup base_url) :
    s.rawHtml.length ≤ 503 ∧ (s.truncated = true ↔ 500 < s.rawHtml.length) := by
  unfold detect_sections at hs
  obtain ⟨⟨idx, el⟩, hmem, hbuild⟩ := List.mem_filterMap.mp hs
  unfold buildSection at hbuild
  split at hbuild
  · exact absurd hbuild (by simp)
  · obtain rfl := Option.some.inj hbuild
    exact truncate_html_cap (serializeNode (decomposeScripts el))

/-- Claim C5 witness: the small-section document's single section satisfies
the cap and the truncation equivalence. -/
theorem detect_sections_rawHtml_cap_witness :
    smallSection ∈ detect_sections smallSectionDoc "http://e.com/" ∧
    (smallSection.rawHtml.length ≤ 503 ∧
      (smallSection.truncated = true ↔ 500 < smallSection.rawHtml.length)) :=
  have hdet : detect_sections smallSectionDoc "http://e.com/" = [smallSection] := by rfl
  have hmem : smallSection ∈ detect_sections smallSectionDoc "http://e.com/" :=
    hdet ▸ List.mem_singleton.mpr rfl
  ⟨hmem, detect_sections_rawHtml_cap smallSectionDoc "http://e.com/" smallSection hmem⟩

set_option maxRecDepth 100000 in
/-- Claim C5 counterexample: a landmark whose serialized markup is 800
characters yields a stored rawHtml of 503 characters, exceeding the claimed
500-character cap. -/
theorem detect_sections_rawHtml_exceeds_500 :
    (detect_sections longSectionDoc "http://e.com/").map (fun s => s.rawHtml.length)
      = [503] := by rfl

/-- Claim C6 (amended): `classify_section_type` evaluates the claimed
ordered rule list with first-match-wins semantics, with one additional rule
the claim omits: a `list` keyword match on the class list or id attribute
(between the keyword group and the structural heuristic) also yields
`list`. -/
theorem classify_section_type_eq_spec (element : Node) (first_heading : String) :
    classify_section_type element first_heading = spec_classify element := by
  unfold spec_classify amendedClassifyRules
  rw [firstMatchWins_cons, firstMatchWins_cons, firstMatchWins_cons, firstMatchWins_cons,
    firstMatchWins_cons, firstMatchWins_cons, firstMatchWins_cons, firstMatchWins_cons,
    firstMatchWins_cons, firstMatchWins_nil]
  unfold classify_section_type keywordHit
  simp only [decide_eq_true_eq]

/-- Claim C6 counterexample: a `div` with class `list` and no descendant
list elements matches none of the claim's listed rules, yet is classified
`list`, not `section`. -/
theorem classify_list_keyword_counterexample :
    classify_section_type listClassDiv "" = "list" ∧
    spec_classify_claimed listClassDiv = "section" := ⟨rfl, rfl⟩

/-- Claim C7 (amended): in a document with no semantic landmark element,
the candidate landmarks are exactly the direct `div` children of `body`
whose cleaned text length exceeds 50 characters, in document order. -/
theorem selectLandmarks_eq_spec_of_no_landmarks (soup : Node)
    (h : findAllByNames landmarkTagNames soup = []) :
    selectLandmarks soup = spec_fallback_candidates soup := by
  unfold selectLandmarks spec_fallback_candidates
  rw [h]
  simp only [List.isEmpty_nil, if_true]
  cases hb : (findAllByNames ["body"] soup).head? with
  | none => rfl
  | some body =>
    cases body with
    | text s => rfl
    | elem t a cs => exact fallbackFilter_eq cs

/-- Claim C7 witness: on a landmark-free div-soup document the selection
equals the amended specification. -/
theorem selectLandmarks_eq_spec_witness :
    findAllByNames landmarkTagNames divSoupDoc = [] ∧
    selectLandmarks divSoupDoc = spec_fallback_candidates divSoupDoc :=
  ⟨rfl, selectLandmarks_eq_spec_of_no_landmarks divSoupDoc rfl⟩

/-- Claim C7 counterexample: a landmark-free document whose `body` has a
single `p` child with 71 characters of cleaned text yields no candidate
landmarks — a direct non-`div` child with text longer than 50 characters
is not a candidate. -/
theorem selectLandmarks_nondiv_counterexample :
    findAllByNames landmarkTagNames pSoupDoc = [] ∧
    spec_fallback_candidates_claimed pSoupDoc = [pSoupChild] ∧
    selectLandmarks pSoupDoc = [] ∧
    50 < (clean_text (getTextRaw pSoupChild)).length := ⟨rfl, rfl, rfl, by decide⟩

/-- Claim C8 (amended): visitedPages starts with the seed URL on the
static path and on every dynamic path except the navigation-failure
(`_error_result`) path, where it is empty; it is also empty when the
global deadline expires. -/
theorem visited_pages_characterization (url now : String)
    (o : UniversalScraper.ScrapeOutcome) :
    (UniversalScraper.scrape url now o).result.interactions.pages
      = expected_visited_pages url o := by
  cases o with
  | deadlineExpired => rfl
  | completed so jp =>
    unfold UniversalScraper.scrape UniversalScraper.scrape_internal
      UniversalScraper.format_response expected_visited_pages
    by_cases h : (StaticScraper.scrape url so).needs_js_fallback <;>
      simp only [h, if_true, if_false, Bool.false_eq_true] <;>
      cases jp <;>
        simp [JavaScriptScraper.scrape, JavaScriptScraper.builtInteractions,
          JavaScriptScraper.error_result]

/-- Claim C8 counterexample: a dynamic navigation failure takes the
`_error_result` path, whose visited-pages list is empty rather than
pre-seeded with the seed URL. -/
theorem visited_pages_empty_counterexample :
    (UniversalScraper.scrape "http://example.com/" "2026-10-12T00:00:00"
      (UniversalScraper.ScrapeOutcome.completed
        (StaticOutcome.parseFailed "<html></html>" "boom")
        (JsPath.navFailed "net::ERR_FAILED"))).result.interactions.pages = [] := rfl

/-- Claim C9: the load-more expansion phase performs at most
`max_depth = 3` clicks per scrape and terminates — for every page model,
including one whose load-more control is always visible and clickable. -/
theorem click_load_more_at_most_max_depth {σ : Type} (m : PageModel σ) (st : σ) :
    ((JavaScriptScraper.click_load_more m st).2).length ≤ JavaScriptScraper.max_depth ∧
    JavaScriptScraper.max_depth = 3 := by
  refine ⟨?_, rfl⟩
  have := clickLoadMoreAux_length m JavaScriptScraper.max_depth st []
  simpa using this

/-- Claim C10: on every fetch-error branch the static scraper returns
`needs_js_fallback = false`; the orchestrator therefore ignores the dynamic
result entirely (its output is independent of it) and assembles the result
from the synthetic fallback section — even though the accumulated text
length 0 is below the 100-character dynamic-rendering threshold. -/
theorem fetch_error_forces_static_path (url now : String) (o : StaticOutcome)
    (h : isFetchError o = true) (j1 j2 : JsResult) (html : String) :
    (StaticScraper.scrape url o).needs_js_fallback = false ∧
    UniversalScraper.scrape_internal url now (StaticScraper.scrape url o) j1
      = UniversalScraper.scrape_internal url now (StaticScraper.scrape url o) j2 ∧
    (UniversalScraper.scrape_internal url now
        (StaticScraper.scrape url o) j1).result.sections
      = UniversalScraper.create_fallback_section url ∧
    should_fallback_to_js [] html = true := by
  cases o with
  | fetchTimeout =>
    refine ⟨rfl, rfl, rfl, ?_⟩
    unfold should_fallback_to_js
    simp
  | httpStatusError code =>
    refine ⟨rfl, rfl, rfl, ?_⟩
    unfold should_fallback_to_js
    simp
  | fetchFailed msg =>
    refine ⟨rfl, rfl, rfl, ?_⟩
    unfold should_fallback_to_js
    simp
  | fetched doc html2 => simp [isFetchError] at h
  | parseFailed html2 msg => simp [isFetchError] at h

/-- Claim C10 witness: instantiated at a request timeout with two distinct
dynamic results. -/
theorem fetch_error_forces_static_path_witness :
    isFetchError StaticOutcome.fetchTimeout = true ∧
    ((StaticScraper.scrape "http://example.com/" StaticOutcome.fetchTimeout).needs_js_fallback = false ∧
      UniversalScraper.scrape_internal "http://example.com/" "2026-10-12T00:00:00"
          (StaticScraper.scrape "http://example.com/" StaticOutcome.fetchTimeout) jsResultA
        = UniversalScraper.scrape_internal "http://example.com/" "2026-10-12T00:00:00"
          (StaticScraper.scrape "http://example.com/" StaticOutcome.fetchTimeout) jsResultB ∧
      (UniversalScraper.scrape_internal "http://example.com/" "2026-10-12T00:00:00"
          (StaticScraper.scrape "http://example.com/" StaticOutcome.fetchTimeout) jsResultA).result.sections
        = UniversalScraper.create_fallback_section "http://example.com/" ∧
      should_fallback_to_js [] "<html></html>" = true) :=
  ⟨rfl, fetch_error_forces_static_path "http://example.com/" "2026-10-12T00:00:00"
    StaticOutcome.fetchTimeout rfl jsResultA jsResultB "<html></html>"⟩
